import Mathlib

/-
Verification of the Gauss-Newton face-tracking solver
(src/gauss_newton_solver.cpp).

The embedding models the solver's float arithmetic by exact rationals (ℚ).
Vectors and matrices of dynamic size are modelled as total functions
`Nat → ℚ` and `Nat → Nat → ℚ` (entries outside the advertised dimensions
are never read by the solver code), small fixed-size glm/Eigen objects as
structures or Mathlib matrices.  glm's column-major indexing `M[c][r]`
(column first) is kept: `Mat4.entry c r` is the entry of column `c`,
row `r`, so the focal term `projection[0][0]` is `entry 0 0`.

External collaborators (the `Face` geometry methods, the feature-to-vertex
prior mapping and the read-only blend-shape bases) are out of scope of
this core and are supplied as an abstract environment `FaceEnv`; the
mutable model state they own is the structure `Face`.
-/

namespace FaceTracking

/-- glm::vec2 over ℚ. -/
structure Vec2 where
  x : ℚ
  y : ℚ
deriving DecidableEq, Repr

/-- glm::vec3 over ℚ. -/
structure Vec3 where
  x : ℚ
  y : ℚ
  z : ℚ
deriving DecidableEq, Repr

/-- glm::vec4 over ℚ. -/
structure Vec4 where
  x : ℚ
  y : ℚ
  z : ℚ
  w : ℚ
deriving DecidableEq, Repr

/-- glm::mat3 over ℚ; `entry c r` is column `c`, row `r` (glm convention `M[c][r]`). -/
structure Mat3 where
  entry : Fin 3 → Fin 3 → ℚ

/-- glm::mat4 over ℚ; `entry c r` is column `c`, row `r` (glm convention `M[c][r]`). -/
structure Mat4 where
  entry : Fin 4 → Fin 4 → ℚ

/-- glm matrix-vector product: `(M*v)[r] = Σ_c M[c][r] * v[c]`. -/
def Mat3.mulVec3 (M : Mat3) (v : Vec3) : Vec3 :=
  ⟨M.entry 0 0 * v.x + M.entry 1 0 * v.y + M.entry 2 0 * v.z,
   M.entry 0 1 * v.x + M.entry 1 1 * v.y + M.entry 2 1 * v.z,
   M.entry 0 2 * v.x + M.entry 1 2 * v.y + M.entry 2 2 * v.z⟩

/-- glm matrix-vector product: `(M*v)[r] = Σ_c M[c][r] * v[c]`. -/
def Mat4.mulVec4 (M : Mat4) (v : Vec4) : Vec4 :=
  ⟨M.entry 0 0 * v.x + M.entry 1 0 * v.y + M.entry 2 0 * v.z + M.entry 3 0 * v.w,
   M.entry 0 1 * v.x + M.entry 1 1 * v.y + M.entry 2 1 * v.z + M.entry 3 1 * v.w,
   M.entry 0 2 * v.x + M.entry 1 2 * v.y + M.entry 2 2 * v.z + M.entry 3 2 * v.w,
   M.entry 0 3 * v.x + M.entry 1 3 * v.y + M.entry 2 3 * v.z + M.entry 3 3 * v.w⟩

/-- In-place write of one entry `M[c][r] = v` (used for `projection[0][0] -= ...`). -/
def Mat4.set (M : Mat4) (c r : Fin 4) (v : ℚ) : Mat4 :=
  ⟨fun c' r' => if c' = c ∧ r' = r then v else M.entry c' r'⟩

/-- The mutable model state owned by the external face model (`Face` in the
source): pose coefficients, blend-shape coefficients and their fixed prior
standard deviations. -/
structure Face where
  rotation_coefficients : Vec3
  translation_coefficients : Vec3
  shape_coefficients : List ℚ
  expression_coefficients : List ℚ
  shape_std_dev : List ℚ
  expression_std_dev : List ℚ
deriving DecidableEq, Repr

/-- The read-only collaborators consumed by the solver: the face geometry
methods (`computeFace`, `computeModelMatrix`, `computeRotationDerivatives`),
the blend-shape basis matrices (row-major: row `3*vertexId + k`, column =
coefficient index) and the session-fixed prior vertex ids
(`PriorSparseFeatures::get().getPriorIds()`). -/
structure FaceEnv where
  number_of_vertices : Nat
  computeFace : Face → List Vec3
  computeModelMatrix : Face → Mat4
  computeRotationDerivatives : Face → Mat3 × Mat3 × Mat3
  shape_basis : Nat → Nat → ℚ
  expression_basis : Nat → Nat → ℚ
  prior_local_ids : List Nat

/-- The solver configuration `m_params` (read-only during a solve). -/
structure SolverParams where
  num_gn_iterations : Int
  num_pcg_iterations : Int
  num_shape_coefficients : Nat
  num_expression_coefficients : Nat
  regularisation_weight_exponent : Int
  kNearZero : ℚ
  kTolerance : ℚ

/-- cublasSdot over the first `n` entries. -/
def dotQ (n : Nat) (a b : Nat → ℚ) : ℚ := ∑ i in Finset.range n, a i * b i

/-- cublasSgemv with CUBLAS_OP_N: `alpha * J * v` where `J` is `nR × nU`. -/
def gemvN (nU : Nat) (alpha : ℚ) (J : Nat → Nat → ℚ) (v : Nat → ℚ) : Nat → ℚ :=
  fun r => alpha * ∑ c in Finset.range nU, J r c * v c

/-- cublasSgemv with CUBLAS_OP_T: `alpha * Jᵗ * v` where `J` is `nR × nU`. -/
def gemvT (nR : Nat) (alpha : ℚ) (J : Nat → Nat → ℚ) (v : Nat → ℚ) : Nat → ℚ :=
  fun c => alpha * ∑ r in Finset.range nR, J r c * v r

/-- Modelled from the spec: the CUDA kernel `computeJacobiPreconditioner`
(not under src/) computes `M = 1/(2*diag(JᵗJ))` without forming `JᵗJ`,
accumulating the sum of squares of each column of `J`. -/
def computeJacobiPreconditioner (nR : Nat) (J : Nat → Nat → ℚ) : Nat → ℚ :=
  fun c => 1 / (2 * ∑ r in Finset.range nR, J r c * J r c)

/-- Modelled from the spec: the CUDA kernel `elementwiseMultiplication`
(not under src/) multiplies two vectors element by element. -/
def elementwiseMultiplication (a b : Nat → ℚ) : Nat → ℚ := fun i => a i * b i

/-- Loop state of `solveUpdatePCG`: current iterate `x`, residual `r`,
search direction `p` and the preconditioned inner product `zTr_old`. -/
structure PCGState where
  x : Nat → ℚ
  r : Nat → ℚ
  p : Nat → ℚ
  zTr_old : ℚ

/-- The straight-line body of one `solveUpdatePCG` loop pass
(gauss_newton_solver.cpp lines 497-525): apply `JᵗJ` as two gemvs, step
length `ak = zTr_old / max(pᵗJᵗJp, kNearZero)`, update `x` and `r`,
recompute `z = M⊙r` and `zᵗr` (stored as the next `zTr_old`), direction
coefficient `bk = zᵗr / max(zTr_old, kNearZero)` and `p = z + bk*p`.
The `bk`/`p` part is only consumed when the loop does not break. -/
def pcgNext (params : SolverParams) (nU nR : Nat) (alphaLHS : ℚ)
    (J : Nat → Nat → ℚ) (M : Nat → ℚ) (s : PCGState) : PCGState :=
  let Jp := gemvN nU alphaLHS J s.p
  let JTJp := gemvT nR 1 J Jp
  let pTJTJp := dotQ nU s.p JTJp
  let ak := s.zTr_old / max pTJTJp params.kNearZero
  let x := fun i => s.x i + ak * s.p i
  let r := fun i => s.r i + (-ak) * JTJp i
  let z := elementwiseMultiplication M r
  let zTr := dotQ nU z r
  let bk := zTr / max s.zTr_old params.kNearZero
  let p := fun i => z i + bk * s.p i
  ⟨x, r, p, zTr⟩

/-- The inner product `zᵗr` computed by one PCG pass and tested against
`kTolerance` (gauss_newton_solver.cpp lines 515-517). -/
def pcgCheck (params : SolverParams) (nU nR : Nat) (alphaLHS : ℚ)
    (J : Nat → Nat → ℚ) (M : Nat → ℚ) (s : PCGState) : ℚ :=
  (pcgNext params nU nR alphaLHS J M s).zTr_old

/-- The floored step-length denominator `max(pᵗJᵗJp, kNearZero)` of one PCG
pass (gauss_newton_solver.cpp line 503). -/
def pcgAkDenom (params : SolverParams) (nU nR : Nat) (alphaLHS : ℚ)
    (J : Nat → Nat → ℚ) (s : PCGState) : ℚ :=
  max (dotQ nU s.p (gemvT nR 1 J (gemvN nU alphaLHS J s.p))) params.kNearZero

/-- The iteration loop of `GaussNewtonSolver::solveUpdatePCG`
(gauss_newton_solver.cpp lines 494-526), with the remaining iteration
budget as fuel: run one pass, break (returning the updated `x`) once
`zᵗr < kTolerance`, else continue with the updated state. -/
def pcgIter (params : SolverParams) (nU nR : Nat) (alphaLHS : ℚ)
    (J : Nat → Nat → ℚ) (M : Nat → ℚ) : Nat → PCGState → (Nat → ℚ)
  | 0, s => s.x
  | fuel + 1, s =>
    if pcgCheck params nU nR alphaLHS J M s < params.kTolerance then
      (pcgNext params nU nR alphaLHS J M s).x
    else pcgIter params nU nR alphaLHS J M fuel (pcgNext params nU nR alphaLHS J M s)

/-- The body of `GaussNewtonSolver::solveUpdatePCG` after the Jacobi
preconditioner `M` has been computed: `x = 0`, `r = alphaRHS * Jᵗ*residuals`,
`z = M⊙r`, `p = z`, `zTr_old = zᵗr`, then the loop runs up to
`min(nUnknowns, num_pcg_iterations)` times. -/
def solveUpdatePCGwithM (params : SolverParams) (nU nR : Nat)
    (J : Nat → Nat → ℚ) (residuals : Nat → ℚ) (alphaLHS alphaRHS : ℚ)
    (M : Nat → ℚ) : Nat → ℚ :=
  let r := gemvT nR alphaRHS J residuals
  let z := elementwiseMultiplication M r
  let p := z
  let zTr_old := dotQ nU z r
  pcgIter params nU nR alphaLHS J M
    (min (nU : Int) params.num_pcg_iterations).toNat ⟨fun _ => 0, r, p, zTr_old⟩

/-- `GaussNewtonSolver::solveUpdatePCG` (gauss_newton_solver.cpp lines
465-528): Jacobi-preconditioned conjugate gradient on the normal equations,
matrix-free. -/
def solveUpdatePCG (params : SolverParams) (nU nR : Nat)
    (J : Nat → Nat → ℚ) (residuals : Nat → ℚ) (alphaLHS alphaRHS : ℚ) : Nat → ℚ :=
  let M := computeJacobiPreconditioner nR J
  solveUpdatePCGwithM params nU nR J residuals alphaLHS alphaRHS M

/-- Loop state of `solveUpdateCG`: current iterate `x`, residual `r`,
search direction `p` and the residual inner product `rTr`. -/
structure CGState where
  x : Nat → ℚ
  r : Nat → ℚ
  p : Nat → ℚ
  rTr : ℚ

/-- The straight-line body of one `solveUpdateCG` loop pass
(gauss_newton_solver.cpp lines 551-576): same shape as `pcgNext` with `r`
itself in place of the preconditioned residual `z`, and `rTr_old` the
state's `rTr`.  The `bk`/`p` part is only consumed when the loop does not
break. -/
def cgNext (params : SolverParams) (nU nR : Nat) (alphaLHS : ℚ)
    (J : Nat → Nat → ℚ) (s : CGState) : CGState :=
  let Jp := gemvN nU alphaLHS J s.p
  let JTJp := gemvT nR 1 J Jp
  let rTr_old := s.rTr
  let pTJTJp := dotQ nU s.p JTJp
  let ak := s.rTr / max pTJTJp params.kNearZero
  let x := fun i => s.x i + ak * s.p i
  let r := fun i => s.r i + (-ak) * JTJp i
  let rTr := dotQ nU r r
  let bk := rTr / max rTr_old params.kNearZero
  let p := fun i => r i + bk * s.p i
  ⟨x, r, p, rTr⟩

/-- The inner product `rᵗr` computed by one CG pass and tested against
`kTolerance` (gauss_newton_solver.cpp lines 568-570). -/
def cgCheck (params : SolverParams) (nU nR : Nat) (alphaLHS : ℚ)
    (J : Nat → Nat → ℚ) (s : CGState) : ℚ :=
  (cgNext params nU nR alphaLHS J s).rTr

/-- The floored step-length denominator `max(pᵗJᵗJp, kNearZero)` of one CG
pass (gauss_newton_solver.cpp line 559). -/
def cgAkDenom (params : SolverParams) (nU nR : Nat) (alphaLHS : ℚ)
    (J : Nat → Nat → ℚ) (s : CGState) : ℚ :=
  max (dotQ nU s.p (gemvT nR 1 J (gemvN nU alphaLHS J s.p))) params.kNearZero

/-- The iteration loop of `GaussNewtonSolver::solveUpdateCG`
(gauss_newton_solver.cpp lines 548-578), with the remaining iteration
budget as fuel: run one pass, break (returning the updated `x`) once
`rᵗr < kTolerance`, else continue with the updated state. -/
def cgIter (params : SolverParams) (nU nR : Nat) (alphaLHS : ℚ)
    (J : Nat → Nat → ℚ) : Nat → CGState → (Nat → ℚ)
  | 0, s => s.x
  | fuel + 1, s =>
    if cgCheck params nU nR alphaLHS J s < params.kTolerance then
      (cgNext params nU nR alphaLHS J s).x
    else cgIter params nU nR alphaLHS J fuel (cgNext params nU nR alphaLHS J s)

/-- `GaussNewtonSolver::solveUpdateCG` (gauss_newton_solver.cpp lines
530-578): plain conjugate gradient on the normal equations, matrix-free:
`x = 0`, `r = alphaRHS * Jᵗ*residuals`, `p = r`, then the loop runs up to
`min(nUnknowns, num_pcg_iterations)` times. -/
def solveUpdateCG (params : SolverParams) (nU nR : Nat)
    (J : Nat → Nat → ℚ) (residuals : Nat → ℚ) (alphaLHS alphaRHS : ℚ) : Nat → ℚ :=
  let r := gemvT nR alphaRHS J residuals
  let p := r
  let rTr := dotQ nU r r
  cgIter params nU nR alphaLHS J
    (min (nU : Int) params.num_pcg_iterations).toNat ⟨fun _ => 0, r, p, rTr⟩

/-- The two Jacobian rows and two residual entries produced for one sparse
feature. -/
structure FeatureRows where
  resid : Fin 2 → ℚ
  jac : Fin 2 → Nat → ℚ

/-- The per-feature body of the Jacobian/residual construction
(gauss_newton_solver.cpp lines 123-185): forward evaluation of the
geometric pipeline at vertex `prior_local_ids[i]` followed by the
chain-rule blocks for focal, pose, shape and expression columns.
`p11` is `projection[1][1]`, captured into `jacobian_world` before the
Gauss-Newton loop. -/
def featureRows (nShapeCoeffs nExpressionCoeffs : Nat)
    (shape_basis expression_basis : Nat → Nat → ℚ)
    (projection : Mat4) (p11 : ℚ) (face_pose : Mat4) (drx dry drz : Mat3)
    (current_face : List Vec3) (ids : List Nat) (sparse_features : List Vec2)
    (i : Nat) : FeatureRows :=
  let vertexId := ids.getD i 0
  let local_coord := current_face.getD vertexId ⟨0, 0, 0⟩
  let world_coord := face_pose.mulVec4 ⟨local_coord.x, local_coord.y, local_coord.z, 1⟩
  let proj_coord := projection.mulVec4 world_coord
  let uv : Vec2 := ⟨proj_coord.x / proj_coord.w, proj_coord.y / proj_coord.w⟩
  let feature := sparse_features.getD i ⟨0, 0⟩
  let one_over_wp := 1 / proj_coord.w
  let jacobian_proj : Matrix (Fin 2) (Fin 3) ℚ :=
    Matrix.of ![![one_over_wp, 0, -proj_coord.x * one_over_wp * one_over_wp],
                 ![0, one_over_wp, -proj_coord.y * one_over_wp * one_over_wp]]
  let jacobian_world : Matrix (Fin 3) (Fin 3) ℚ :=
    Matrix.of ![![projection.entry 0 0, 0, 0],
                 ![0, p11, 0],
                 ![0, 0, -1]]
  let jacobian_intrinsics : Matrix (Fin 3) (Fin 1) ℚ :=
    Matrix.of ![![world_coord.x], ![0], ![0]]
  let dx := drx.mulVec3 local_coord
  let dy := dry.mulVec3 local_coord
  let dz := drz.mulVec3 local_coord
  let jacobian_pose : Matrix (Fin 3) (Fin 6) ℚ :=
    Matrix.of ![![dx.x, dy.x, dz.x, 1, 0, 0],
                 ![dx.y, dy.y, dz.y, 0, 1, 0],
                 ![dx.z, dy.z, dz.z, 0, 0, 1]]
  let jacobian_local : Matrix (Fin 3) (Fin 3) ℚ :=
    Matrix.of ![![face_pose.entry 0 0, face_pose.entry 1 0, face_pose.entry 2 0],
                 ![face_pose.entry 0 1, face_pose.entry 1 1, face_pose.entry 2 1],
                 ![face_pose.entry 0 2, face_pose.entry 1 2, face_pose.entry 2 2]]
  let focal_block := jacobian_proj * jacobian_intrinsics
  let jacobian_proj_world := jacobian_proj * jacobian_world
  let pose_block := jacobian_proj_world * jacobian_pose
  let jacobian_proj_world_local := jacobian_proj_world * jacobian_local
  let shape_slice : Matrix (Fin 3) (Fin nShapeCoeffs) ℚ :=
    Matrix.of fun k j => shape_basis (3 * vertexId + k.val) j.val
  let jacobian_shape := jacobian_proj_world_local * shape_slice
  let expression_slice : Matrix (Fin 3) (Fin nExpressionCoeffs) ℚ :=
    Matrix.of fun k j => expression_basis (3 * vertexId + k.val) j.val
  let jacobian_expression := jacobian_proj_world_local * expression_slice
  { resid := fun s => if s = 0 then feature.x - uv.x else feature.y - uv.y
    jac := fun s c =>
      if h0 : c = 0 then focal_block s 0
      else if h7 : c < 7 then pose_block s ⟨c - 1, by omega⟩
      else if hs : c < 7 + nShapeCoeffs then jacobian_shape s ⟨c - 7, by omega⟩
      else if he : c < 7 + nShapeCoeffs + nExpressionCoeffs then
        jacobian_expression s ⟨c - 7 - nShapeCoeffs, by omega⟩
      else 0 }

/-- The assembled Jacobian (gauss_newton_solver.cpp lines 42-44, 123-207):
rows `2i, 2i+1` hold the chain-rule block of feature `i`; the
regularization rows that follow hold one diagonal entry per shape (then
expression) coefficient, `(1/σ_i)² * coeff_i * wReg * 2`; all other
entries stay at the initial zero of `jacobian.setZero()`. -/
def buildJacobian (nFeatures nShapeCoeffs nExpressionCoeffs : Nat) (wReg : ℚ)
    (shape_basis expression_basis : Nat → Nat → ℚ)
    (shape_coefficients expression_coefficients shape_std_dev expression_std_dev : List ℚ)
    (projection : Mat4) (p11 : ℚ) (face_pose : Mat4) (drx dry drz : Mat3)
    (current_face : List Vec3) (ids : List Nat) (sparse_features : List Vec2) :
    Nat → Nat → ℚ :=
  fun r c =>
    if hf : r < 2 * nFeatures then
      (featureRows nShapeCoeffs nExpressionCoeffs shape_basis expression_basis
        projection p11 face_pose drx dry drz current_face ids sparse_features
        (r / 2)).jac ⟨r % 2, by omega⟩ c
    else if hs : r < 2 * nFeatures + nShapeCoeffs then
      if c = 7 + (r - 2 * nFeatures) then
        let i := r - 2 * nFeatures
        let divSigma := 1 / shape_std_dev.getD i 0
        divSigma * divSigma * shape_coefficients.getD i 0 * wReg * 2
      else 0
    else if he : r < 2 * nFeatures + nShapeCoeffs + nExpressionCoeffs then
      if c = 7 + nShapeCoeffs + (r - 2 * nFeatures - nShapeCoeffs) then
        let i := r - 2 * nFeatures - nShapeCoeffs
        let divSigma := 1 / expression_std_dev.getD i 0
        divSigma * divSigma * expression_coefficients.getD i 0 * wReg * 2
      else 0
    else 0

/-- The assembled residual vector (gauss_newton_solver.cpp lines 136-137,
199, 205): entries `2i, 2i+1` are `observed(i) - screen(i)`; every
regularization row is forced to 0. -/
def buildResiduals (nFeatures nShapeCoeffs nExpressionCoeffs : Nat)
    (shape_basis expression_basis : Nat → Nat → ℚ)
    (projection : Mat4) (p11 : ℚ) (face_pose : Mat4) (drx dry drz : Mat3)
    (current_face : List Vec3) (ids : List Nat) (sparse_features : List Vec2) :
    Nat → ℚ :=
  fun r =>
    if hf : r < 2 * nFeatures then
      (featureRows nShapeCoeffs nExpressionCoeffs shape_basis expression_basis
        projection p11 face_pose drx dry drz current_face ids sparse_features
        (r / 2)).resid ⟨r % 2, by omega⟩
    else 0

/-- Modelled from the spec: the CUDA kernels `computeJacobianSparseFeatures`
and `computeRegularizer` invoked by `GaussNewtonSolver::solve` (lines
367-382) are not under src/; per the spec they assemble the same
sparse-feature block and regularization block as the CPU path, so they are
modelled by the same construction as `buildJacobian`. -/
def computeJacobianDevice := buildJacobian

/-- Modelled from the spec: the residual side of the
`computeJacobianSparseFeatures`/`computeRegularizer` kernels (not under
src/), identical to the CPU construction `buildResiduals`. -/
def computeResidualsDevice := buildResiduals

/-- One position-indexed pass over a coefficient list, starting at index
`i`: the element at offset `j` becomes `f (i+j) c`.  This renders the
`for (int i = 0; i < n; ++i) coeffs[i] = ...` update loops. -/
def updateFrom (f : Nat → ℚ → ℚ) : Nat → List ℚ → List ℚ
  | _, [] => []
  | i, c :: cs => f i c :: updateFrom f (i + 1) cs

/-- The combined mutable state `(face, projection)` threaded through the
Gauss-Newton loop. -/
structure GNState where
  face : Face
  projection : Mat4

/-- The delta application of `GaussNewtonSolver::solve`
(gauss_newton_solver.cpp lines 391-413): `projection[0][0] -= result[0]`,
rotation `-= result[1..3]`, translation `-= result[4..6]`, each shape
coefficient `i < num_shape_coefficients` becomes
`c - result[7+i] * sca / shape_std_dev[i]` (with `sca = 1`, unclamped),
each expression coefficient `i < num_expression_coefficients` becomes
`max(0, min(1, c - result[7+nShape+i] * sca / expression_std_dev[i]))`. -/
def applyDelta (nShapeCoeffs nExpressionCoeffs : Nat) (result : Nat → ℚ)
    (face : Face) (projection : Mat4) : GNState :=
  let projection := projection.set 0 0 (projection.entry 0 0 - result 0)
  let rc := face.rotation_coefficients
  let tc := face.translation_coefficients
  let rc : Vec3 := ⟨rc.x - result 1, rc.y - result 2, rc.z - result 3⟩
  let tc : Vec3 := ⟨tc.x - result 4, tc.y - result 5, tc.z - result 6⟩
  let sca : ℚ := 1
  let shape := updateFrom
    (fun i c => if i < nShapeCoeffs then
        c - result (7 + i) * sca / face.shape_std_dev.getD i 0
      else c) 0 face.shape_coefficients
  let expression := updateFrom
    (fun i c => if i < nExpressionCoeffs then
        max 0 (min 1 (c - result (7 + nShapeCoeffs + i) * sca / face.expression_std_dev.getD i 0))
      else c) 0 face.expression_coefficients
  ⟨{ face with
      rotation_coefficients := rc
      translation_coefficients := tc
      shape_coefficients := shape
      expression_coefficients := expression }, projection⟩

/-- The delta application of `GaussNewtonSolver::solve_CPU`
(gauss_newton_solver.cpp lines 237-260); textually the same update code as
in `solve`. -/
def applyDeltaCPU (nShapeCoeffs nExpressionCoeffs : Nat) (result : Nat → ℚ)
    (face : Face) (projection : Mat4) : GNState :=
  let projection := projection.set 0 0 (projection.entry 0 0 - result 0)
  let rc := face.rotation_coefficients
  let tc := face.translation_coefficients
  let rc : Vec3 := ⟨rc.x - result 1, rc.y - result 2, rc.z - result 3⟩
  let tc : Vec3 := ⟨tc.x - result 4, tc.y - result 5, tc.z - result 6⟩
  let sca : ℚ := 1
  let shape := updateFrom
    (fun i c => if i < nShapeCoeffs then
        c - result (7 + i) * sca / face.shape_std_dev.getD i 0
      else c) 0 face.shape_coefficients
  let expression := updateFrom
    (fun i c => if i < nExpressionCoeffs then
        max 0 (min 1 (c - result (7 + nShapeCoeffs + i) * sca / face.expression_std_dev.getD i 0))
      else c) 0 face.expression_coefficients
  ⟨{ face with
      rotation_coefficients := rc
      translation_coefficients := tc
      shape_coefficients := shape
      expression_coefficients := expression }, projection⟩

/-- The Jacobian built inside one iteration of `GaussNewtonSolver::solve`
at state `st`: geometry is recomputed from the current coefficients, then
the device kernels assemble the matrix. -/
def iterJacobian (env : FaceEnv) (params : SolverParams) (sparse_features : List Vec2)
    (p11 : ℚ) (st : GNState) : Nat → Nat → ℚ :=
  let wReg := (10 : ℚ) ^ params.regularisation_weight_exponent
  let current_face := env.computeFace st.face
  let face_pose := env.computeModelMatrix st.face
  let d := env.computeRotationDerivatives st.face
  computeJacobianDevice sparse_features.length params.num_shape_coefficients
    params.num_expression_coefficients wReg env.shape_basis env.expression_basis
    st.face.shape_coefficients st.face.expression_coefficients
    st.face.shape_std_dev st.face.expression_std_dev
    st.projection p11 face_pose d.1 d.2.1 d.2.2 current_face
    env.prior_local_ids sparse_features

/-- The residual vector built inside one iteration of
`GaussNewtonSolver::solve` at state `st`. -/
def iterResiduals (env : FaceEnv) (params : SolverParams) (sparse_features : List Vec2)
    (p11 : ℚ) (st : GNState) : Nat → ℚ :=
  let current_face := env.computeFace st.face
  let face_pose := env.computeModelMatrix st.face
  let d := env.computeRotationDerivatives st.face
  computeResidualsDevice sparse_features.length params.num_shape_coefficients
    params.num_expression_coefficients env.shape_basis env.expression_basis
    st.projection p11 face_pose d.1 d.2.1 d.2.2 current_face
    env.prior_local_ids sparse_features

/-- The delta returned by the linear solver in one iteration of
`GaussNewtonSolver::solve` at state `st` (line 386:
`solveUpdatePCG(m_cublas, nUnknowns, nResiduals, ..., 2, -1)`). -/
def iterDelta (env : FaceEnv) (params : SolverParams) (sparse_features : List Vec2)
    (p11 : ℚ) (st : GNState) : Nat → ℚ :=
  let nFaceCoeffs := params.num_shape_coefficients + params.num_expression_coefficients
  let nUnknowns := 7 + nFaceCoeffs
  let nResiduals := 2 * sparse_features.length + nFaceCoeffs
  solveUpdatePCG params nUnknowns nResiduals
    (iterJacobian env params sparse_features p11 st)
    (iterResiduals env params sparse_features p11 st) 2 (-1)

/-- One iteration of the Gauss-Newton loop of `GaussNewtonSolver::solve`
(gauss_newton_solver.cpp lines 350-414): recompute geometry and model
matrix and rotation derivatives from the current state, assemble the
Jacobian and residual, obtain the delta from the PCG solver, apply it. -/
def gnIteration (env : FaceEnv) (params : SolverParams) (sparse_features : List Vec2)
    (p11 : ℚ) (st : GNState) : GNState :=
  applyDelta params.num_shape_coefficients params.num_expression_coefficients
    (iterDelta env params sparse_features p11 st) st.face st.projection

/-- The outer `for (int iteration = 0; iteration < num_gn_iterations; ...)`
loop of `GaussNewtonSolver::solve`, with the remaining iteration count as
fuel. -/
def solveLoop (env : FaceEnv) (params : SolverParams) (sparse_features : List Vec2)
    (p11 : ℚ) : Nat → GNState → GNState
  | 0, st => st
  | n + 1, st => solveLoop env params sparse_features p11 n
      (gnIteration env params sparse_features p11 st)

/-- `GaussNewtonSolver::solve` (gauss_newton_solver.cpp lines 276-415):
empty feature sequences short-circuit (line 279-280), otherwise the
Gauss-Newton loop runs `num_gn_iterations` times (never for a
non-positive count), with `projection[1][1]` captured into the world
Jacobian before the loop. -/
def solve (env : FaceEnv) (params : SolverParams) (sparse_features : List Vec2)
    (face : Face) (projection : Mat4) : GNState :=
  if sparse_features.isEmpty then ⟨face, projection⟩
  else
    solveLoop env params sparse_features (projection.entry 1 1)
      params.num_gn_iterations.toNat ⟨face, projection⟩

/-- One iteration of the Gauss-Newton loop of `GaussNewtonSolver::solve_CPU`
(gauss_newton_solver.cpp lines 107-272): the Jacobian/residual are built by
the in-source CPU loops (`buildJacobian`/`buildResiduals`), the solve is
the same `solveUpdatePCG` call (line 233), the update is `applyDeltaCPU`. -/
def gnIterationCPU (env : FaceEnv) (params : SolverParams) (sparse_features : List Vec2)
    (p11 : ℚ) (st : GNState) : GNState :=
  let nFaceCoeffs := params.num_shape_coefficients + params.num_expression_coefficients
  let nUnknowns := 7 + nFaceCoeffs
  let nResiduals := 2 * sparse_features.length + nFaceCoeffs
  let wReg := (10 : ℚ) ^ params.regularisation_weight_exponent
  let current_face := env.computeFace st.face
  let face_pose := env.computeModelMatrix st.face
  let d := env.computeRotationDerivatives st.face
  let jacobian := buildJacobian sparse_features.length params.num_shape_coefficients
    params.num_expression_coefficients wReg env.shape_basis env.expression_basis
    st.face.shape_coefficients st.face.expression_coefficients
    st.face.shape_std_dev st.face.expression_std_dev
    st.projection p11 face_pose d.1 d.2.1 d.2.2 current_face
    env.prior_local_ids sparse_features
  let residuals := buildResiduals sparse_features.length params.num_shape_coefficients
    params.num_expression_coefficients env.shape_basis env.expression_basis
    st.projection p11 face_pose d.1 d.2.1 d.2.2 current_face
    env.prior_local_ids sparse_features
  let result := solveUpdatePCG params nUnknowns nResiduals jacobian residuals 2 (-1)
  applyDeltaCPU params.num_shape_coefficients params.num_expression_coefficients
    result st.face st.projection

/-- The outer Gauss-Newton loop of `GaussNewtonSolver::solve_CPU`
(line 107), with the remaining iteration count as fuel. -/
def solveLoopCPU (env : FaceEnv) (params : SolverParams) (sparse_features : List Vec2)
    (p11 : ℚ) : Nat → GNState → GNState
  | 0, st => st
  | n + 1, st => solveLoopCPU env params sparse_features p11 n
      (gnIterationCPU env params sparse_features p11 st)

/-- `GaussNewtonSolver::solve_CPU` (gauss_newton_solver.cpp lines 20-273):
empty feature sequences short-circuit (lines 23-24), otherwise the
Gauss-Newton loop runs `num_gn_iterations` times. -/
def solve_CPU (env : FaceEnv) (params : SolverParams) (sparse_features : List Vec2)
    (face : Face) (projection : Mat4) : GNState :=
  if sparse_features.isEmpty then ⟨face, projection⟩
  else
    solveLoopCPU env params sparse_features (projection.entry 1 1)
      params.num_gn_iterations.toNat ⟨face, projection⟩

/-- One executed CG/PCG loop iteration, as recorded by the instrumented
loops below: the inner product tested against `kTolerance` (`zᵗr` for PCG,
`rᵗr` for CG), the floored step-length denominator `max(pᵗJᵗJp, kNearZero)`,
and the floored direction-coefficient denominator (absent when the
iteration broke out before computing `bk`). -/
structure CGIterRecord where
  checked : ℚ
  akDenom : ℚ
  bkDenom : Option ℚ

/-- Instrumented version of `pcgIter`: same computation, also returning the
per-iteration record list. -/
def pcgIterTrace (params : SolverParams) (nU nR : Nat) (alphaLHS : ℚ)
    (J : Nat → Nat → ℚ) (M : Nat → ℚ) : Nat → PCGState → ((Nat → ℚ) × List CGIterRecord)
  | 0, s => (s.x, [])
  | fuel + 1, s =>
    if pcgCheck params nU nR alphaLHS J M s < params.kTolerance then
      ((pcgNext params nU nR alphaLHS J M s).x,
       [⟨pcgCheck params nU nR alphaLHS J M s, pcgAkDenom params nU nR alphaLHS J s, none⟩])
    else
      let rest := pcgIterTrace params nU nR alphaLHS J M fuel (pcgNext params nU nR alphaLHS J M s)
      (rest.1,
       ⟨pcgCheck params nU nR alphaLHS J M s, pcgAkDenom params nU nR alphaLHS J s,
        some (max s.zTr_old params.kNearZero)⟩ :: rest.2)

/-- Instrumented version of `solveUpdatePCG`: final iterate plus the list
of executed loop iterations. -/
def solveUpdatePCGTrace (params : SolverParams) (nU nR : Nat)
    (J : Nat → Nat → ℚ) (residuals : Nat → ℚ) (alphaLHS alphaRHS : ℚ) :
    (Nat → ℚ) × List CGIterRecord :=
  let M := computeJacobiPreconditioner nR J
  let r := gemvT nR alphaRHS J residuals
  let z := elementwiseMultiplication M r
  let p := z
  let zTr_old := dotQ nU z r
  pcgIterTrace params nU nR alphaLHS J M
    (min (nU : Int) params.num_pcg_iterations).toNat ⟨fun _ => 0, r, p, zTr_old⟩

/-- Instrumented version of `cgIter`: same computation, also returning the
per-iteration record list. -/
def cgIterTrace (params : SolverParams) (nU nR : Nat) (alphaLHS : ℚ)
    (J : Nat → Nat → ℚ) : Nat → CGState → ((Nat → ℚ) × List CGIterRecord)
  | 0, s => (s.x, [])
  | fuel + 1, s =>
    if cgCheck params nU nR alphaLHS J s < params.kTolerance then
      ((cgNext params nU nR alphaLHS J s).x,
       [⟨cgCheck params nU nR alphaLHS J s, cgAkDenom params nU nR alphaLHS J s, none⟩])
    else
      let rest := cgIterTrace params nU nR alphaLHS J fuel (cgNext params nU nR alphaLHS J s)
      (rest.1,
       ⟨cgCheck params nU nR alphaLHS J s, cgAkDenom params nU nR alphaLHS J s,
        some (max s.rTr params.kNearZero)⟩ :: rest.2)

/-- Instrumented version of `solveUpdateCG`: final iterate plus the list of
executed loop iterations. -/
def solveUpdateCGTrace (params : SolverParams) (nU nR : Nat)
    (J : Nat → Nat → ℚ) (residuals : Nat → ℚ) (alphaLHS alphaRHS : ℚ) :
    (Nat → ℚ) × List CGIterRecord :=
  let r := gemvT nR alphaRHS J residuals
  let p := r
  let rTr := dotQ nU r r
  cgIterTrace params nU nR alphaLHS J
    (min (nU : Int) params.num_pcg_iterations).toNat ⟨fun _ => 0, r, p, rTr⟩

/-- The state reached after `k` Gauss-Newton iterations of `solve` started
from `(face, projection)` (with `projection[1][1]` captured before the
loop, as in the source). -/
def gnStateAt (env : FaceEnv) (params : SolverParams) (sf : List Vec2)
    (face : Face) (projection : Mat4) (k : Nat) : GNState :=
  solveLoop env params sf (projection.entry 1 1) k ⟨face, projection⟩

/-- Concrete test fixture: a face model with one shape and one expression
coefficient, both 1/2, with unit standard deviations. -/
def sampleFace : Face :=
  ⟨⟨0, 0, 0⟩, ⟨0, 0, 0⟩, [1/2], [1/2], [1], [1]⟩

/-- Concrete test fixture: an all-zero projection matrix. -/
def sampleProj : Mat4 := ⟨fun _ _ => 0⟩

/-- Concrete test fixture: a one-vertex environment with zero geometry. -/
def sampleEnv : FaceEnv :=
  ⟨1, fun _ => [⟨0, 0, 0⟩], fun _ => ⟨fun _ _ => 0⟩,
   fun _ => (⟨fun _ _ => 0⟩, ⟨fun _ _ => 0⟩, ⟨fun _ _ => 0⟩),
   fun _ _ => 0, fun _ _ => 0, [0]⟩

/-- Concrete test fixture: one Gauss-Newton iteration, one inner iteration,
one shape and one expression coefficient, weight exponent 0. -/
def sampleParams : SolverParams :=
  ⟨1, 1, 1, 1, 0, 1/1000000, 1/10000⟩

/-- Concrete test fixture: a single observed feature at the origin. -/
def sampleFeatures : List Vec2 := [⟨0, 0⟩]

/-- Concrete test fixture: like `sampleParams` but with a negative
Gauss-Newton iteration count. -/
def sampleParamsNeg : SolverParams :=
  ⟨-1, 1, 1, 1, 0, 1/1000000, 1/10000⟩

/-- Concrete test delta: 8/10 in the shape slot and in the expression
slot, driving both raw updates of `sampleFace` to -3/10. -/
def deltaA : Nat → ℚ := fun k => if k = 7 then 8/10 else if k = 8 then 8/10 else 0

/-- Concrete test delta: -9/10 in the expression slot, driving the raw
expression update of `sampleFace` to 7/5. -/
def deltaB : Nat → ℚ := fun k => if k = 8 then -(9/10) else 0

theorem pcgIterTrace_fst (params : SolverParams) (nU nR : Nat) (aL : ℚ)
    (J : Nat → Nat → ℚ) (M : Nat → ℚ) :
    ∀ (fuel : Nat) (s : PCGState),
      (pcgIterTrace params nU nR aL J M fuel s).1 = pcgIter params nU nR aL J M fuel s
  | 0, _ => rfl
  | fuel + 1, s => by
    simp only [pcgIterTrace, pcgIter]
    split_ifs
    · rfl
    · exact pcgIterTrace_fst params nU nR aL J M fuel _

theorem cgIterTrace_fst (params : SolverParams) (nU nR : Nat) (aL : ℚ)
    (J : Nat → Nat → ℚ) :
    ∀ (fuel : Nat) (s : CGState),
      (cgIterTrace params nU nR aL J fuel s).1 = cgIter params nU nR aL J fuel s
  | 0, _ => rfl
  | fuel + 1, s => by
    simp only [cgIterTrace, cgIter]
    split_ifs
    · rfl
    · exact cgIterTrace_fst params nU nR aL J fuel _

theorem pcgIterTrace_length_le (params : SolverParams) (nU nR : Nat) (aL : ℚ)
    (J : Nat → Nat → ℚ) (M : Nat → ℚ) :
    ∀ (fuel : Nat) (s : PCGState),
      (pcgIterTrace params nU nR aL J M fuel s).2.length ≤ fuel
  | 0, _ => Nat.le_refl 0
  | fuel + 1, s => by
    simp only [pcgIterTrace]
    split_ifs
    · simp
    · simpa using pcgIterTrace_length_le params nU nR aL J M fuel
        (pcgNext params nU nR aL J M s)

theorem cgIterTrace_length_le (params : SolverParams) (nU nR : Nat) (aL : ℚ)
    (J : Nat → Nat → ℚ) :
    ∀ (fuel : Nat) (s : CGState),
      (cgIterTrace params nU nR aL J fuel s).2.length ≤ fuel
  | 0, _ => Nat.le_refl 0
  | fuel + 1, s => by
    simp only [cgIterTrace]
    split_ifs
    · simp
    · simpa using cgIterTrace_length_le params nU nR aL J fuel
        (cgNext params nU nR aL J s)

theorem pcgIterTrace_early (params : SolverParams) (nU nR : Nat) (aL : ℚ)
    (J : Nat → Nat → ℚ) (M : Nat → ℚ) :
    ∀ (fuel : Nat) (s : PCGState),
      (pcgIterTrace params nU nR aL J M fuel s).2.length < fuel →
      ∃ rec ∈ (pcgIterTrace params nU nR aL J M fuel s).2,
        rec.checked < params.kTolerance
  | 0, s => by simp [pcgIterTrace]
  | fuel + 1, s => by
    simp only [pcgIterTrace]
    split_ifs with h
    · intro _
      exact ⟨_, List.mem_singleton_self _, h⟩
    · intro hlen
      simp only [List.length_cons] at hlen
      obtain ⟨rc, hm, hc⟩ :=
        pcgIterTrace_early params nU nR aL J M fuel
          (pcgNext params nU nR aL J M s) (by omega)
      exact ⟨rc, List.mem_cons_of_mem _ hm, hc⟩

theorem cgIterTrace_early (params : SolverParams) (nU nR : Nat) (aL : ℚ)
    (J : Nat → Nat → ℚ) :
    ∀ (fuel : Nat) (s : CGState),
      (cgIterTrace params nU nR aL J fuel s).2.length < fuel →
      ∃ rec ∈ (cgIterTrace params nU nR aL J fuel s).2,
        rec.checked < params.kTolerance
  | 0, s => by simp [cgIterTrace]
  | fuel + 1, s => by
    simp only [cgIterTrace]
    split_ifs with h
    · intro _
      exact ⟨_, List.mem_singleton_self _, h⟩
    · intro hlen
      simp only [List.length_cons] at hlen
      obtain ⟨rc, hm, hc⟩ :=
        cgIterTrace_early params nU nR aL J fuel
          (cgNext params nU nR aL J s) (by omega)
      exact ⟨rc, List.mem_cons_of_mem _ hm, hc⟩

theorem pcgIterTrace_full (params : SolverParams) (nU nR : Nat) (aL : ℚ)
    (J : Nat → Nat → ℚ) (M : Nat → ℚ) :
    ∀ (fuel : Nat) (s : PCGState),
      (∀ rec ∈ (pcgIterTrace params nU nR aL J M fuel s).2,
        params.kTolerance ≤ rec.checked) →
      (pcgIterTrace params nU nR aL J M fuel s).2.length = fuel
  | 0, s => by simp [pcgIterTrace]
  | fuel + 1, s => by
    simp only [pcgIterTrace]
    split_ifs with h
    · intro hall
      exact absurd h (not_lt.2 (hall _ (List.mem_singleton_self _)))
    · intro hall
      simp only [List.length_cons]
      have h2 := pcgIterTrace_full params nU nR aL J M fuel
        (pcgNext params nU nR aL J M s)
        (fun rec hr => hall rec (List.mem_cons_of_mem _ hr))
      omega

theorem cgIterTrace_full (params : SolverParams) (nU nR : Nat) (aL : ℚ)
    (J : Nat → Nat → ℚ) :
    ∀ (fuel : Nat) (s : CGState),
      (∀ rec ∈ (cgIterTrace params nU nR aL J fuel s).2,
        params.kTolerance ≤ rec.checked) →
      (cgIterTrace params nU nR aL J fuel s).2.length = fuel
  | 0, s => by simp [cgIterTrace]
  | fuel + 1, s => by
    simp only [cgIterTrace]
    split_ifs with h
    · intro hall
      exact absurd h (not_lt.2 (hall _ (List.mem_singleton_self _)))
    · intro hall
      simp only [List.length_cons]
      have h2 := cgIterTrace_full params nU nR aL J fuel
        (cgNext params nU nR aL J s)
        (fun rec hr => hall rec (List.mem_cons_of_mem _ hr))
      omega

theorem pcgIterTrace_prefix_ge (params : SolverParams) (nU nR : Nat) (aL : ℚ)
    (J : Nat → Nat → ℚ) (M : Nat → ℚ) :
    ∀ (fuel : Nat) (s : PCGState) (i : Nat),
      i + 1 < (pcgIterTrace params nU nR aL J M fuel s).2.length →
      params.kTolerance ≤
        ((pcgIterTrace params nU nR aL J M fuel s).2.getD i ⟨0, 0, none⟩).checked
  | 0, s, i => by simp [pcgIterTrace]
  | fuel + 1, s, i => by
    simp only [pcgIterTrace]
    split_ifs with hbr
    · intro h
      simp at h
    · intro h
      simp only [List.length_cons] at h
      match i with
      | 0 => simpa using not_lt.1 hbr
      | j + 1 =>
        simpa using pcgIterTrace_prefix_ge params nU nR aL J M fuel
          (pcgNext params nU nR aL J M s) j (by omega)

theorem cgIterTrace_prefix_ge (params : SolverParams) (nU nR : Nat) (aL : ℚ)
    (J : Nat → Nat → ℚ) :
    ∀ (fuel : Nat) (s : CGState) (i : Nat),
      i + 1 < (cgIterTrace params nU nR aL J fuel s).2.length →
      params.kTolerance ≤
        ((cgIterTrace params nU nR aL J fuel s).2.getD i ⟨0, 0, none⟩).checked
  | 0, s, i => by simp [cgIterTrace]
  | fuel + 1, s, i => by
    simp only [cgIterTrace]
    split_ifs with hbr
    · intro h
      simp at h
    · intro h
      simp only [List.length_cons] at h
      match i with
      | 0 => simpa using not_lt.1 hbr
      | j + 1 =>
        simpa using cgIterTrace_prefix_ge params nU nR aL J fuel
          (cgNext params nU nR aL J s) j (by omega)

theorem pcgIterTrace_denoms (params : SolverParams) (nU nR : Nat) (aL : ℚ)
    (J : Nat → Nat → ℚ) (M : Nat → ℚ) :
    ∀ (fuel : Nat) (s : PCGState) (rec : CGIterRecord),
      rec ∈ (pcgIterTrace params nU nR aL J M fuel s).2 →
      (∃ v, rec.akDenom = max v params.kNearZero) ∧
      (∀ d ∈ rec.bkDenom, ∃ v, d = max v params.kNearZero)
  | 0, s, rec => by simp [pcgIterTrace]
  | fuel + 1, s, rec => by
    simp only [pcgIterTrace]
    split_ifs with h
    · intro hm
      rcases List.mem_singleton.1 hm with rfl
      exact ⟨⟨_, rfl⟩, by simp [pcgAkDenom]⟩
    · intro hm
      rcases List.mem_cons.1 hm with rfl | hm'
      · refine ⟨⟨_, rfl⟩, ?_⟩
        intro d hd
        simp only [Option.mem_def, Option.some.injEq] at hd
        exact ⟨_, hd.symm⟩
      · exact pcgIterTrace_denoms params nU nR aL J M fuel
          (pcgNext params nU nR aL J M s) rec hm'

theorem cgIterTrace_denoms (params : SolverParams) (nU nR : Nat) (aL : ℚ)
    (J : Nat → Nat → ℚ) :
    ∀ (fuel : Nat) (s : CGState) (rec : CGIterRecord),
      rec ∈ (cgIterTrace params nU nR aL J fuel s).2 →
      (∃ v, rec.akDenom = max v params.kNearZero) ∧
      (∀ d ∈ rec.bkDenom, ∃ v, d = max v params.kNearZero)
  | 0, s, rec => by simp [cgIterTrace]
  | fuel + 1, s, rec => by
    simp only [cgIterTrace]
    split_ifs with h
    · intro hm
      rcases List.mem_singleton.1 hm with rfl
      exact ⟨⟨_, rfl⟩, by simp [cgAkDenom]⟩
    · intro hm
      rcases List.mem_cons.1 hm with rfl | hm'
      · refine ⟨⟨_, rfl⟩, ?_⟩
        intro d hd
        simp only [Option.mem_def, Option.some.injEq] at hd
        exact ⟨_, hd.symm⟩
      · exact cgIterTrace_denoms params nU nR aL J fuel
          (cgNext params nU nR aL J s) rec hm'

theorem elementwiseMultiplication_one (b : Nat → ℚ) :
    elementwiseMultiplication (fun _ => 1) b = b :=
  funext fun i => one_mul (b i)

theorem pcgNext_one (params : SolverParams) (nU nR : Nat) (aL : ℚ)
    (J : Nat → Nat → ℚ) (s : PCGState) :
    pcgNext params nU nR aL J (fun _ => 1) s
      = let t := cgNext params nU nR aL J ⟨s.x, s.r, s.p, s.zTr_old⟩
        ⟨t.x, t.r, t.p, t.rTr⟩ := by
  simp [pcgNext, cgNext, elementwiseMultiplication_one]

theorem pcgIter_oneM (params : SolverParams) (nU nR : Nat) (aL : ℚ)
    (J : Nat → Nat → ℚ) :
    ∀ (fuel : Nat) (s : PCGState),
      pcgIter params nU nR aL J (fun _ => 1) fuel s
        = cgIter params nU nR aL J fuel ⟨s.x, s.r, s.p, s.zTr_old⟩
  | 0, _ => rfl
  | fuel + 1, s => by
    simp only [pcgIter, cgIter, pcgCheck, cgCheck, pcgNext_one]
    split_ifs
    · rfl
    · exact pcgIter_oneM params nU nR aL J fuel _

theorem solveUpdatePCGwithM_one (params : SolverParams) (nU nR : Nat)
    (J : Nat → Nat → ℚ) (residuals : Nat → ℚ) (aL aR : ℚ) :
    solveUpdatePCGwithM params nU nR J residuals aL aR (fun _ => 1)
      = solveUpdateCG params nU nR J residuals aL aR := by
  simp only [solveUpdatePCGwithM, solveUpdateCG, elementwiseMultiplication_one]
  exact pcgIter_oneM params nU nR aL J _ _

theorem length_updateFrom (f : Nat → ℚ → ℚ) :
    ∀ (i : Nat) (l : List ℚ), (updateFrom f i l).length = l.length
  | _, [] => rfl
  | i, c :: cs => by
    simp [updateFrom, length_updateFrom f (i + 1) cs]

theorem getD_updateFrom (f : Nat → ℚ → ℚ) :
    ∀ (i j : Nat) (l : List ℚ),
      (updateFrom f i l).getD j 0 = if j < l.length then f (i + j) (l.getD j 0) else 0
  | i, j, [] => by simp [updateFrom]
  | i, 0, c :: cs => by simp [updateFrom]
  | i, j + 1, c :: cs => by
    simp only [updateFrom, List.getD_cons_succ, List.length_cons]
    rw [getD_updateFrom f (i + 1) j cs]
    have harith : i + 1 + j = i + (j + 1) := by omega
    by_cases h : j < cs.length
    · simp [h, Nat.succ_lt_succ h, harith]
    · simp [h, fun hh => h (Nat.lt_of_succ_lt_succ hh)]

theorem mem_updateFrom (f : Nat → ℚ → ℚ) :
    ∀ (i : Nat) (l : List ℚ) (x : ℚ),
      x ∈ updateFrom f i l → ∃ j, j < l.length ∧ x = f (i + j) (l.getD j 0)
  | i, [], x => by simp [updateFrom]
  | i, c :: cs, x => by
    simp only [updateFrom, List.mem_cons]
    rintro (rfl | hm)
    · exact ⟨0, by simp, by simp⟩
    · obtain ⟨j, hj, hx⟩ := mem_updateFrom f (i + 1) cs x hm
      refine ⟨j + 1, by simpa using Nat.succ_lt_succ hj, ?_⟩
      have harith : i + 1 + j = i + (j + 1) := by omega
      simpa [harith] using hx

theorem applyDelta_proj_focal (nS nE : Nat) (result : Nat → ℚ) (face : Face) (proj : Mat4) :
    (applyDelta nS nE result face proj).projection.entry 0 0 = proj.entry 0 0 - result 0 := by
  simp [applyDelta, Mat4.set]

theorem applyDelta_proj_other (nS nE : Nat) (result : Nat → ℚ) (face : Face) (proj : Mat4)
    (c r : Fin 4) (h : ¬(c = 0 ∧ r = 0)) :
    (applyDelta nS nE result face proj).projection.entry c r = proj.entry c r := by
  simp [applyDelta, Mat4.set, h]

theorem applyDelta_rotation (nS nE : Nat) (result : Nat → ℚ) (face : Face) (proj : Mat4) :
    (applyDelta nS nE result face proj).face.rotation_coefficients
      = ⟨face.rotation_coefficients.x - result 1,
         face.rotation_coefficients.y - result 2,
         face.rotation_coefficients.z - result 3⟩ := by
  simp [applyDelta]

theorem applyDelta_translation (nS nE : Nat) (result : Nat → ℚ) (face : Face) (proj : Mat4) :
    (applyDelta nS nE result face proj).face.translation_coefficients
      = ⟨face.translation_coefficients.x - result 4,
         face.translation_coefficients.y - result 5,
         face.translation_coefficients.z - result 6⟩ := by
  simp [applyDelta]

theorem applyDelta_shape_getD (nS nE : Nat) (result : Nat → ℚ) (face : Face) (proj : Mat4)
    (i : Nat) (hn : i < nS) (hl : i < face.shape_coefficients.length) :
    (applyDelta nS nE result face proj).face.shape_coefficients.getD i 0
      = face.shape_coefficients.getD i 0 - result (7 + i) / face.shape_std_dev.getD i 0 := by
  simp only [applyDelta]
  rw [getD_updateFrom]
  simp [hl, hn]

theorem applyDelta_expression_getD (nS nE : Nat) (result : Nat → ℚ) (face : Face) (proj : Mat4)
    (i : Nat) (hn : i < nE) (hl : i < face.expression_coefficients.length) :
    (applyDelta nS nE result face proj).face.expression_coefficients.getD i 0
      = max 0 (min 1 (face.expression_coefficients.getD i 0
          - result (7 + nS + i) / face.expression_std_dev.getD i 0)) := by
  simp only [applyDelta]
  rw [getD_updateFrom]
  simp [hl, hn]

theorem applyDelta_shape_getD_ge (nS nE : Nat) (result : Nat → ℚ) (face : Face) (proj : Mat4)
    (i : Nat) (hn : ¬ i < nS) :
    (applyDelta nS nE result face proj).face.shape_coefficients.getD i 0
      = face.shape_coefficients.getD i 0 := by
  simp only [applyDelta]
  rw [getD_updateFrom]
  by_cases hl : i < face.shape_coefficients.length
  · simp [hl, hn]
  · rw [if_neg hl, List.getD_eq_default _ _ (Nat.le_of_not_lt hl)]

theorem applyDelta_stds (nS nE : Nat) (result : Nat → ℚ) (face : Face) (proj : Mat4) :
    (applyDelta nS nE result face proj).face.shape_std_dev = face.shape_std_dev
    ∧ (applyDelta nS nE result face proj).face.expression_std_dev = face.expression_std_dev := by
  simp [applyDelta]

theorem applyDelta_lengths (nS nE : Nat) (result : Nat → ℚ) (face : Face) (proj : Mat4) :
    (applyDelta nS nE result face proj).face.shape_coefficients.length
        = face.shape_coefficients.length
    ∧ (applyDelta nS nE result face proj).face.expression_coefficients.length
        = face.expression_coefficients.length := by
  simp [applyDelta, length_updateFrom]

theorem solveLoop_succ (env : FaceEnv) (params : SolverParams) (sf : List Vec2) (p11 : ℚ) :
    ∀ (k : Nat) (st : GNState),
      solveLoop env params sf p11 (k + 1) st
        = gnIteration env params sf p11 (solveLoop env params sf p11 k st)
  | 0, st => rfl
  | k + 1, st => by
    have ih := solveLoop_succ env params sf p11 k (gnIteration env params sf p11 st)
    simp only [solveLoop] at ih ⊢
    exact ih

theorem solveLoop_eq_iterate (env : FaceEnv) (params : SolverParams) (sf : List Vec2) (p11 : ℚ) :
    ∀ (n : Nat) (st : GNState),
      solveLoop env params sf p11 n st = (gnIteration env params sf p11)^[n] st
  | 0, st => rfl
  | n + 1, st => by
    simp only [solveLoop, Function.iterate_succ_apply]
    exact solveLoop_eq_iterate env params sf p11 n _

theorem gnIteration_expr_length (env : FaceEnv) (params : SolverParams) (sf : List Vec2)
    (p11 : ℚ) (st : GNState) :
    (gnIteration env params sf p11 st).face.expression_coefficients.length
      = st.face.expression_coefficients.length := by
  simp only [gnIteration]
  exact (applyDelta_lengths _ _ _ _ _).2

theorem solveLoop_expr_length (env : FaceEnv) (params : SolverParams) (sf : List Vec2) (p11 : ℚ) :
    ∀ (n : Nat) (st : GNState),
      (solveLoop env params sf p11 n st).face.expression_coefficients.length
        = st.face.expression_coefficients.length
  | 0, st => rfl
  | n + 1, st => by
    simp only [solveLoop]
    rw [solveLoop_expr_length env params sf p11 n _]
    exact gnIteration_expr_length env params sf p11 st

theorem preconditioner_eq_inv_diag (nU nR : Nat) (J : Nat → Nat → ℚ) (c : Nat) (hc : c < nU) :
    computeJacobiPreconditioner nR J c
      = 1 / (2 * gemvT nR 1 J (gemvN nU 1 J (fun j => if j = c then 1 else 0)) c) := by
  simp only [computeJacobiPreconditioner, gemvT, gemvN, one_mul]
  congr 2
  apply Finset.sum_congr rfl
  intro r _
  congr 1
  simp only [mul_ite, mul_one, mul_zero]
  rw [Finset.sum_ite_eq' (Finset.range nU) c fun j => J r j]
  simp [Finset.mem_range.2 hc]

/-- C2: for every face model and projection matrix, calling `solve` (or
`solve_CPU`) with an empty feature sequence returns immediately and leaves
the face model's rotation, translation, shape and expression coefficients
and the projection matrix completely unchanged. -/
theorem spec_C2 (env : FaceEnv) (params : SolverParams) (face : Face) (proj : Mat4) :
    solve env params [] face proj = ⟨face, proj⟩
    ∧ solve_CPU env params [] face proj = ⟨face, proj⟩ :=
  ⟨rfl, rfl⟩

/-- C9: for every delta vector, the parameter-update step of the CPU path
`solve_CPU` and of the default path `solve` compute identical new model
states (same focal, rotation and translation subtractions, same
per-coefficient division by the standard deviation, same [0,1] clamp
applied only to expression coefficients); moreover the whole per-iteration
steps of the two paths agree. -/
theorem spec_C9 :
    (∀ (nS nE : Nat) (result : Nat → ℚ) (face : Face) (proj : Mat4),
      applyDeltaCPU nS nE result face proj = applyDelta nS nE result face proj)
    ∧ (∀ (env : FaceEnv) (params : SolverParams) (sf : List Vec2) (p11 : ℚ) (st : GNState),
      gnIterationCPU env params sf p11 st = gnIteration env params sf p11 st) :=
  ⟨fun _ _ _ _ _ => rfl, fun _ _ _ _ _ => rfl⟩

/-- C10: if the configured number of Gauss-Newton iterations is zero or
negative, `solve` (and `solve_CPU`) leave the face model's coefficients
and the projection matrix unchanged even when the feature sequence is
non-empty, since the outer loop body never executes. -/
theorem spec_C10 (env : FaceEnv) (params : SolverParams) (sf : List Vec2)
    (face : Face) (proj : Mat4) (h : params.num_gn_iterations ≤ 0) :
    solve env params sf face proj = ⟨face, proj⟩
    ∧ solve_CPU env params sf face proj = ⟨face, proj⟩ := by
  have h0 : params.num_gn_iterations.toNat = 0 := Int.toNat_of_nonpos h
  constructor
  · rw [solve]
    split_ifs
    · rfl
    · rw [h0]; rfl
  · rw [solve_CPU]
    split_ifs
    · rfl
    · rw [h0]; rfl

/-- C10 witness: a negative iteration count on concrete inputs. -/
theorem spec_C10_witness :
    solve sampleEnv sampleParamsNeg sampleFeatures sampleFace sampleProj
      = ⟨sampleFace, sampleProj⟩ :=
  (spec_C10 sampleEnv sampleParamsNeg sampleFeatures sampleFace sampleProj
    (by decide)).1

/-- C5: the PCG solver has the same iteration structure as plain CG
(instantiating the preconditioner by the constant-one vector turns the PCG
pipeline, with its preconditioned residual `z = M⊙r` and its `zᵗr` inner
products, literally into the CG pipeline), the Jacobi preconditioner
equals `1/(2·diag(JᵗJ))` where the diagonal is computed through the
solver's own matrix-vector products (so forming `JᵗJ` is unnecessary),
and `solveUpdatePCG` is that pipeline run with the Jacobi preconditioner. -/
theorem spec_C5 (params : SolverParams) (nU nR : Nat) (J : Nat → Nat → ℚ)
    (residuals : Nat → ℚ) (aL aR : ℚ) (c : Nat) (hc : c < nU) :
    computeJacobiPreconditioner nR J c
      = 1 / (2 * gemvT nR 1 J (gemvN nU 1 J (fun j => if j = c then 1 else 0)) c)
    ∧ solveUpdatePCGwithM params nU nR J residuals aL aR (fun _ => 1)
        = solveUpdateCG params nU nR J residuals aL aR
    ∧ solveUpdatePCG params nU nR J residuals aL aR
        = solveUpdatePCGwithM params nU nR J residuals aL aR
            (computeJacobiPreconditioner nR J) :=
  ⟨preconditioner_eq_inv_diag nU nR J c hc,
   solveUpdatePCGwithM_one params nU nR J residuals aL aR, rfl⟩

/-- C5 witness: concrete one-unknown system. -/
theorem spec_C5_witness :
    solveUpdatePCGwithM sampleParams 1 1 (fun _ _ => 1) (fun _ => 1) 2 (-1) (fun _ => 1)
      = solveUpdateCG sampleParams 1 1 (fun _ _ => 1) (fun _ => 1) 2 (-1) :=
  (spec_C5 sampleParams 1 1 (fun _ _ => 1) (fun _ => 1) 2 (-1) 0 (by decide)).2.1

/-- C8: in every iteration, the regularization block of the Jacobian built
at the current state consists of one diagonal entry per regularized
coefficient: for shape coefficient `i` the entry at row `2*nFeatures + i`,
column `7 + i` equals `(1/σ_i)² · coeff_i · λ · 2` with
`λ = 10^(regularisation_weight_exponent)`, all other entries of that row
are zero and the corresponding residual entry is zero; the expression
coefficients get the symmetric construction at the next row/column
offsets. -/
theorem spec_C8 (env : FaceEnv) (params : SolverParams) (sf : List Vec2) (p11 : ℚ)
    (st : GNState) (i : Nat) :
    (i < params.num_shape_coefficients →
      iterJacobian env params sf p11 st (2 * sf.length + i) (7 + i)
        = (1 / st.face.shape_std_dev.getD i 0) ^ 2 * st.face.shape_coefficients.getD i 0
            * (10 : ℚ) ^ params.regularisation_weight_exponent * 2
      ∧ (∀ c, c ≠ 7 + i → iterJacobian env params sf p11 st (2 * sf.length + i) c = 0)
      ∧ iterResiduals env params sf p11 st (2 * sf.length + i) = 0)
    ∧ (i < params.num_expression_coefficients →
      iterJacobian env params sf p11 st
          (2 * sf.length + params.num_shape_coefficients + i)
          (7 + params.num_shape_coefficients + i)
        = (1 / st.face.expression_std_dev.getD i 0) ^ 2
            * st.face.expression_coefficients.getD i 0
            * (10 : ℚ) ^ params.regularisation_weight_exponent * 2
      ∧ (∀ c, c ≠ 7 + params.num_shape_coefficients + i →
          iterJacobian env params sf p11 st
            (2 * sf.length + params.num_shape_coefficients + i) c = 0)
      ∧ iterResiduals env params sf p11 st
          (2 * sf.length + params.num_shape_coefficients + i) = 0) := by
  constructor
  · intro hi
    refine ⟨?_, ?_, ?_⟩
    · simp only [iterJacobian, computeJacobianDevice, buildJacobian]
      rw [dif_neg (by omega), dif_pos (by omega), if_pos (by omega)]
      have harith : 2 * sf.length + i - 2 * sf.length = i := by omega
      simp only [harith]
      ring
    · intro c hc
      simp only [iterJacobian, computeJacobianDevice, buildJacobian]
      rw [dif_neg (by omega), dif_pos (by omega), if_neg (by omega)]
    · simp only [iterResiduals, computeResidualsDevice, buildResiduals]
      rw [dif_neg (by omega)]
  · intro hi
    refine ⟨?_, ?_, ?_⟩
    · simp only [iterJacobian, computeJacobianDevice, buildJacobian]
      rw [dif_neg (by omega), dif_neg (by omega), dif_pos (by omega), if_pos (by omega)]
      have harith : 2 * sf.length + params.num_shape_coefficients + i
          - 2 * sf.length - params.num_shape_coefficients = i := by omega
      simp only [harith]
      ring
    · intro c hc
      simp only [iterJacobian, computeJacobianDevice, buildJacobian]
      rw [dif_neg (by omega), dif_neg (by omega), dif_pos (by omega), if_neg (by omega)]
    · simp only [iterResiduals, computeResidualsDevice, buildResiduals]
      rw [dif_neg (by omega)]

/-- C8 witness: the shape block of the sample system at the initial state. -/
theorem spec_C8_witness :
    iterJacobian sampleEnv sampleParams sampleFeatures (sampleProj.entry 1 1)
        ⟨sampleFace, sampleProj⟩ (2 * sampleFeatures.length + 0) (7 + 0)
      = (1 / sampleFace.shape_std_dev.getD 0 0) ^ 2 * sampleFace.shape_coefficients.getD 0 0
          * (10 : ℚ) ^ sampleParams.regularisation_weight_exponent * 2 :=
  ((spec_C8 sampleEnv sampleParams sampleFeatures (sampleProj.entry 1 1)
    ⟨sampleFace, sampleProj⟩ 0).1 (by decide)).1

/-- C1: for every non-empty feature sequence and every iteration of
`solve`, the delta returned by the linear solver is applied to the model
state exactly as: the projection's focal entry `[0][0]` is decremented by
`delta 0` (all other projection entries unchanged); the three rotation
coefficients are decremented by `delta 1`, `delta 2`, `delta 3`; the three
translation coefficients by `delta 4`, `delta 5`, `delta 6`; each shape
coefficient `i` is decremented by `delta (7+i)` divided by its standard
deviation with no clamping; each expression coefficient `i` is set to the
clamp of `expr i - delta (7+nShape+i) / exprStdDev i` into [0,1]. -/
theorem spec_C1 (env : FaceEnv) (params : SolverParams) (sf : List Vec2)
    (face : Face) (proj : Mat4) (k : Nat)
    (hsf : sf ≠ []) (hk : k < params.num_gn_iterations.toNat) :
    solve env params sf face proj
      = gnStateAt env params sf face proj params.num_gn_iterations.toNat
    ∧ (gnStateAt env params sf face proj (k + 1)).projection.entry 0 0
        = (gnStateAt env params sf face proj k).projection.entry 0 0
          - iterDelta env params sf (proj.entry 1 1)
              (gnStateAt env params sf face proj k) 0
    ∧ (∀ c r : Fin 4, ¬(c = 0 ∧ r = 0) →
        (gnStateAt env params sf face proj (k + 1)).projection.entry c r
          = (gnStateAt env params sf face proj k).projection.entry c r)
    ∧ (gnStateAt env params sf face proj (k + 1)).face.rotation_coefficients
        = ⟨(gnStateAt env params sf face proj k).face.rotation_coefficients.x
            - iterDelta env params sf (proj.entry 1 1)
                (gnStateAt env params sf face proj k) 1,
           (gnStateAt env params sf face proj k).face.rotation_coefficients.y
            - iterDelta env params sf (proj.entry 1 1)
                (gnStateAt env params sf face proj k) 2,
           (gnStateAt env params sf face proj k).face.rotation_coefficients.z
            - iterDelta env params sf (proj.entry 1 1)
                (gnStateAt env params sf face proj k) 3⟩
    ∧ (gnStateAt env params sf face proj (k + 1)).face.translation_coefficients
        = ⟨(gnStateAt env params sf face proj k).face.translation_coefficients.x
            - iterDelta env params sf (proj.entry 1 1)
                (gnStateAt env params sf face proj k) 4,
           (gnStateAt env params sf face proj k).face.translation_coefficients.y
            - iterDelta env params sf (proj.entry 1 1)
                (gnStateAt env params sf face proj k) 5,
           (gnStateAt env params sf face proj k).face.translation_coefficients.z
            - iterDelta env params sf (proj.entry 1 1)
                (gnStateAt env params sf face proj k) 6⟩
    ∧ (∀ i, i < params.num_shape_coefficients →
        i < (gnStateAt env params sf face proj k).face.shape_coefficients.length →
        (gnStateAt env params sf face proj (k + 1)).face.shape_coefficients.getD i 0
          = (gnStateAt env params sf face proj k).face.shape_coefficients.getD i 0
            - iterDelta env params sf (proj.entry 1 1)
                (gnStateAt env params sf face proj k) (7 + i)
              / (gnStateAt env params sf face proj k).face.shape_std_dev.getD i 0)
    ∧ (∀ i, i < params.num_expression_coefficients →
        i < (gnStateAt env params sf face proj k).face.expression_coefficients.length →
        (gnStateAt env params sf face proj (k + 1)).face.expression_coefficients.getD i 0
          = max 0 (min 1
              ((gnStateAt env params sf face proj k).face.expression_coefficients.getD i 0
                - iterDelta env params sf (proj.entry 1 1)
                    (gnStateAt env params sf face proj k)
                    (7 + params.num_shape_coefficients + i)
                  / (gnStateAt env params sf face proj k).face.expression_std_dev.getD i 0))) := by
  have hstep : gnStateAt env params sf face proj (k + 1)
      = applyDelta params.num_shape_coefficients params.num_expression_coefficients
          (iterDelta env params sf (proj.entry 1 1) (gnStateAt env params sf face proj k))
          (gnStateAt env params sf face proj k).face
          (gnStateAt env params sf face proj k).projection := by
    simp only [gnStateAt]
    rw [solveLoop_succ]
    rfl
  refine ⟨?_, ?_, ?_, ?_, ?_, ?_, ?_⟩
  · rw [solve, if_neg (by simpa [List.isEmpty_iff] using hsf)]
    rfl
  · rw [hstep]
    exact applyDelta_proj_focal _ _ _ _ _
  · intro c r hcr
    rw [hstep]
    exact applyDelta_proj_other _ _ _ _ _ c r hcr
  · rw [hstep]
    exact applyDelta_rotation _ _ _ _ _
  · rw [hstep]
    exact applyDelta_translation _ _ _ _ _
  · intro i hi hl
    rw [hstep]
    exact applyDelta_shape_getD _ _ _ _ _ i hi hl
  · intro i hi hl
    rw [hstep]
    exact applyDelta_expression_getD _ _ _ _ _ i hi hl

/-- C1 witness: the focal update at iteration 0 of the sample system. -/
theorem spec_C1_witness :
    (gnStateAt sampleEnv sampleParams sampleFeatures sampleFace sampleProj 1).projection.entry 0 0
      = (gnStateAt sampleEnv sampleParams sampleFeatures sampleFace sampleProj 0).projection.entry 0 0
        - iterDelta sampleEnv sampleParams sampleFeatures (sampleProj.entry 1 1)
            (gnStateAt sampleEnv sampleParams sampleFeatures sampleFace sampleProj 0) 0 :=
  (spec_C1 sampleEnv sampleParams sampleFeatures sampleFace sampleProj 0
    (by simp [sampleFeatures]) (by decide)).2.1

/-- C4: for every non-empty feature sequence, `solve` performs exactly the
configured number of Gauss-Newton iterations (iterating `gnIteration` that
many times, with no convergence-based early exit at the outer level), and
each iteration recomputes the geometry from the current state, builds the
Jacobian and residual from it, runs the PCG linear solver on the
`(7+nShape+nExpr)`-unknown, `(2*nFeatures+nShape+nExpr)`-residual system
to get the delta, and applies the delta to the model state. -/
theorem spec_C4 (env : FaceEnv) (params : SolverParams) (sf : List Vec2)
    (face : Face) (proj : Mat4) (hsf : sf ≠ [])
    (hn : 0 ≤ params.num_gn_iterations) :
    solve env params sf face proj
      = (gnIteration env params sf (proj.entry 1 1))^[params.num_gn_iterations.toNat]
          ⟨face, proj⟩
    ∧ (∀ st : GNState, gnIteration env params sf (proj.entry 1 1) st
        = applyDelta params.num_shape_coefficients params.num_expression_coefficients
            (solveUpdatePCG params
              (7 + (params.num_shape_coefficients + params.num_expression_coefficients))
              (2 * sf.length + (params.num_shape_coefficients + params.num_expression_coefficients))
              (iterJacobian env params sf (proj.entry 1 1) st)
              (iterResiduals env params sf (proj.entry 1 1) st) 2 (-1))
            st.face st.projection) := by
  constructor
  · rw [solve, if_neg (by simpa [List.isEmpty_iff] using hsf)]
    exact solveLoop_eq_iterate env params sf (proj.entry 1 1)
      params.num_gn_iterations.toNat ⟨face, proj⟩
  · intro st
    rfl

/-- C4 witness: the sample system runs its single configured iteration. -/
theorem spec_C4_witness :
    solve sampleEnv sampleParams sampleFeatures sampleFace sampleProj
      = (gnIteration sampleEnv sampleParams sampleFeatures (sampleProj.entry 1 1))^[
          sampleParams.num_gn_iterations.toNat] ⟨sampleFace, sampleProj⟩ :=
  (spec_C4 sampleEnv sampleParams sampleFeatures sampleFace sampleProj
    (by simp [sampleFeatures]) (by decide)).1

/-- C3: after every Gauss-Newton iteration of `solve`, every expression
coefficient of the face model lies within [0,1] (on the concrete samples,
a raw update to -3/10 is clamped to 0 and a raw update to 7/5 is clamped
to 1), while shape coefficients are updated without clamping (a raw update
to -3/10 stays -3/10, and in general the update is the exact unclamped
difference). -/
theorem spec_C3 (env : FaceEnv) (params : SolverParams) (sf : List Vec2) (p11 : ℚ)
    (st0 : GNState) (k : Nat)
    (hlen : st0.face.expression_coefficients.length ≤ params.num_expression_coefficients) :
    (∀ c ∈ (solveLoop env params sf p11 (k + 1) st0).face.expression_coefficients,
        0 ≤ c ∧ c ≤ 1)
    ∧ (∀ (st : GNState) (i : Nat), i < params.num_shape_coefficients →
        i < st.face.shape_coefficients.length →
        (gnIteration env params sf p11 st).face.shape_coefficients.getD i 0
          = st.face.shape_coefficients.getD i 0
            - iterDelta env params sf p11 st (7 + i) / st.face.shape_std_dev.getD i 0)
    ∧ (applyDelta 1 1 deltaA sampleFace sampleProj).face.shape_coefficients = [-(3/10)]
    ∧ (applyDelta 1 1 deltaA sampleFace sampleProj).face.expression_coefficients = [0]
    ∧ (applyDelta 1 1 deltaB sampleFace sampleProj).face.expression_coefficients = [1] := by
  refine ⟨?_, ?_, ?_, ?_, ?_⟩
  · intro c hc
    rw [solveLoop_succ] at hc
    have hlen1 : (solveLoop env params sf p11 k st0).face.expression_coefficients.length
        ≤ params.num_expression_coefficients := by
      rw [solveLoop_expr_length]
      exact hlen
    simp only [gnIteration, applyDelta] at hc
    obtain ⟨j, hj, rfl⟩ := mem_updateFrom _ 0 _ c hc
    have hjE : j < params.num_expression_coefficients := lt_of_lt_of_le hj hlen1
    simp only [Nat.zero_add, if_pos hjE]
    constructor
    · exact le_max_left _ _
    · exact max_le zero_le_one (min_le_left _ _)
  · intro st i hi hl
    exact applyDelta_shape_getD params.num_shape_coefficients
      params.num_expression_coefficients (iterDelta env params sf p11 st)
      st.face st.projection i hi hl
  · norm_num [applyDelta, updateFrom, deltaA, sampleFace, sampleProj]
  · norm_num [applyDelta, updateFrom, deltaA, sampleFace, sampleProj, max_def, min_def]
  · norm_num [applyDelta, updateFrom, deltaB, sampleFace, sampleProj, max_def, min_def]

/-- C3 witness: the concrete unclamped shape update. -/
theorem spec_C3_witness :
    (applyDelta 1 1 deltaA sampleFace sampleProj).face.shape_coefficients = [-(3/10)] :=
  (spec_C3 sampleEnv sampleParams sampleFeatures 0 ⟨sampleFace, sampleProj⟩ 0
    (by decide)).2.2.1

/-- C6: both CG and PCG execute at most `min(nUnknowns, num_pcg_iterations)`
loop iterations; the loop exits early (fewer iterations than that budget)
exactly when the (preconditioned) residual inner product drops below
`kTolerance` — every non-final checked inner product is at least the
tolerance, and if no check drops below it the loop runs the full budget —
and in all cases the solver returns its current iterate `x` (the first
component of the instrumented run) without signaling any failure. -/
theorem spec_C6 (params : SolverParams) (nU nR : Nat) (J : Nat → Nat → ℚ)
    (residuals : Nat → ℚ) (aL aR : ℚ) :
    (solveUpdatePCG params nU nR J residuals aL aR
        = (solveUpdatePCGTrace params nU nR J residuals aL aR).1
      ∧ (solveUpdatePCGTrace params nU nR J residuals aL aR).2.length
          ≤ (min (nU : Int) params.num_pcg_iterations).toNat
      ∧ ((solveUpdatePCGTrace params nU nR J residuals aL aR).2.length
            < (min (nU : Int) params.num_pcg_iterations).toNat →
          ∃ rec ∈ (solveUpdatePCGTrace params nU nR J residuals aL aR).2,
            rec.checked < params.kTolerance)
      ∧ ((∀ rec ∈ (solveUpdatePCGTrace params nU nR J residuals aL aR).2,
            params.kTolerance ≤ rec.checked) →
          (solveUpdatePCGTrace params nU nR J residuals aL aR).2.length
            = (min (nU : Int) params.num_pcg_iterations).toNat)
      ∧ (∀ i, i + 1 < (solveUpdatePCGTrace params nU nR J residuals aL aR).2.length →
          params.kTolerance ≤
            ((solveUpdatePCGTrace params nU nR J residuals aL aR).2.getD i
              ⟨0, 0, none⟩).checked))
    ∧ (solveUpdateCG params nU nR J residuals aL aR
        = (solveUpdateCGTrace params nU nR J residuals aL aR).1
      ∧ (solveUpdateCGTrace params nU nR J residuals aL aR).2.length
          ≤ (min (nU : Int) params.num_pcg_iterations).toNat
      ∧ ((solveUpdateCGTrace params nU nR J residuals aL aR).2.length
            < (min (nU : Int) params.num_pcg_iterations).toNat →
          ∃ rec ∈ (solveUpdateCGTrace params nU nR J residuals aL aR).2,
            rec.checked < params.kTolerance)
      ∧ ((∀ rec ∈ (solveUpdateCGTrace params nU nR J residuals aL aR).2,
            params.kTolerance ≤ rec.checked) →
          (solveUpdateCGTrace params nU nR J residuals aL aR).2.length
            = (min (nU : Int) params.num_pcg_iterations).toNat)
      ∧ (∀ i, i + 1 < (solveUpdateCGTrace params nU nR J residuals aL aR).2.length →
          params.kTolerance ≤
            ((solveUpdateCGTrace params nU nR J residuals aL aR).2.getD i
              ⟨0, 0, none⟩).checked)) := by
  constructor
  · refine ⟨?_, ?_, ?_, ?_, ?_⟩
    · simp only [solveUpdatePCG, solveUpdatePCGwithM, solveUpdatePCGTrace]
      exact (pcgIterTrace_fst params nU nR aL J _ _ _).symm
    · simp only [solveUpdatePCGTrace]
      exact pcgIterTrace_length_le params nU nR aL J _ _ _
    · simp only [solveUpdatePCGTrace]
      exact pcgIterTrace_early params nU nR aL J _ _ _
    · simp only [solveUpdatePCGTrace]
      exact pcgIterTrace_full params nU nR aL J _ _ _
    · simp only [solveUpdatePCGTrace]
      exact fun i => pcgIterTrace_prefix_ge params nU nR aL J _ _ _ i
  · refine ⟨?_, ?_, ?_, ?_, ?_⟩
    · simp only [solveUpdateCG, solveUpdateCGTrace]
      exact (cgIterTrace_fst params nU nR aL J _ _).symm
    · simp only [solveUpdateCGTrace]
      exact cgIterTrace_length_le params nU nR aL J _ _
    · simp only [solveUpdateCGTrace]
      exact cgIterTrace_early params nU nR aL J _ _
    · simp only [solveUpdateCGTrace]
      exact cgIterTrace_full params nU nR aL J _ _
    · simp only [solveUpdateCGTrace]
      exact fun i => cgIterTrace_prefix_ge params nU nR aL J _ _ i

/-- C6 witness: the PCG solver equals the first component of its
instrumented run on a concrete one-unknown system. -/
theorem spec_C6_witness :
    solveUpdatePCG sampleParams 1 1 (fun _ _ => 1) (fun _ => 1) 2 (-1)
      = (solveUpdatePCGTrace sampleParams 1 1 (fun _ _ => 1) (fun _ => 1) 2 (-1)).1 :=
  (spec_C6 sampleParams 1 1 (fun _ _ => 1) (fun _ => 1) 2 (-1)).1.1

/-- C7: in both CG and PCG, every division used to compute the step length
`ak` and the direction coefficient `bk` has its denominator floored at the
configured near-zero constant: in every executed loop iteration the
recorded step-length denominator `max(pᵗJᵗJp, kNearZero)` and direction
denominator `max(old inner product, kNearZero)` are at least `kNearZero`,
hence strictly positive when `kNearZero` is, so no division by zero or by
a value below `kNearZero` ever occurs in the solver loops. -/
theorem spec_C7 (params : SolverParams) (nU nR : Nat) (J : Nat → Nat → ℚ)
    (residuals : Nat → ℚ) (aL aR : ℚ) (heps : 0 < params.kNearZero) :
    (∀ rec ∈ (solveUpdatePCGTrace params nU nR J residuals aL aR).2,
        params.kNearZero ≤ rec.akDenom ∧ 0 < rec.akDenom
        ∧ ∀ d ∈ rec.bkDenom, params.kNearZero ≤ d ∧ 0 < d)
    ∧ (∀ rec ∈ (solveUpdateCGTrace params nU nR J residuals aL aR).2,
        params.kNearZero ≤ rec.akDenom ∧ 0 < rec.akDenom
        ∧ ∀ d ∈ rec.bkDenom, params.kNearZero ≤ d ∧ 0 < d) := by
  constructor
  · intro rec hm
    simp only [solveUpdatePCGTrace] at hm
    obtain ⟨⟨v, hak⟩, hbk⟩ := pcgIterTrace_denoms params nU nR aL J _ _ _ rec hm
    refine ⟨?_, ?_, ?_⟩
    · rw [hak]
      exact le_max_right _ _
    · rw [hak]
      exact lt_of_lt_of_le heps (le_max_right _ _)
    · intro d hd
      obtain ⟨w, hw⟩ := hbk d hd
      rw [hw]
      exact ⟨le_max_right _ _, lt_of_lt_of_le heps (le_max_right _ _)⟩
  · intro rec hm
    simp only [solveUpdateCGTrace] at hm
    obtain ⟨⟨v, hak⟩, hbk⟩ := cgIterTrace_denoms params nU nR aL J _ _ rec hm
    refine ⟨?_, ?_, ?_⟩
    · rw [hak]
      exact le_max_right _ _
    · rw [hak]
      exact lt_of_lt_of_le heps (le_max_right _ _)
    · intro d hd
      obtain ⟨w, hw⟩ := hbk d hd
      rw [hw]
      exact ⟨le_max_right _ _, lt_of_lt_of_le heps (le_max_right _ _)⟩

/-- C7 witness: concrete one-unknown system with positive `kNearZero`. -/
theorem spec_C7_witness :
    (∀ rec ∈ (solveUpdatePCGTrace sampleParams 1 1 (fun _ _ => 1) (fun _ => 1) 2 (-1)).2,
        sampleParams.kNearZero ≤ rec.akDenom ∧ 0 < rec.akDenom
        ∧ ∀ d ∈ rec.bkDenom, sampleParams.kNearZero ≤ d ∧ 0 < d)
    ∧ (∀ rec ∈ (solveUpdateCGTrace sampleParams 1 1 (fun _ _ => 1) (fun _ => 1) 2 (-1)).2,
        sampleParams.kNearZero ≤ rec.akDenom ∧ 0 < rec.akDenom
        ∧ ∀ d ∈ rec.bkDenom, sampleParams.kNearZero ≤ d ∧ 0 < d) :=
  spec_C7 sampleParams 1 1 (fun _ _ => 1) (fun _ => 1) 2 (-1)
    (by norm_num [sampleParams])

end FaceTracking
